import Mathlib

/-!
# Verification of the BoxNow backend (godsnbees-boxnow-backend)

Shallow embedding of the delivery-request backend: the repository holds several
near-duplicate revisions of a small HTTP service that normalizes checkout
payloads and forwards them to the BoxNow carrier API.  We embed, from the
source:

* the JavaScript value- and coercion model needed by the handlers
  (truthiness, `String(x)`, `Number(x)` on decimal literals, `toFixed(2)`,
  `Math.round`, `toLowerCase`, whitespace stripping);
* the unit-normalizer functions (`mapPaymentModeToBoxNow`, `normalizePhone`,
  `parseKg`, `kgToGrams`, `normalizeWeightToGrams`, `normalizeCompartmentSize`,
  `safeMoney`);
* the `POST /api/boxnow/delivery-requests` handler of the weight-rule revision
  (src/src/index.js lines 508-670) up to the point where the outbound carrier
  call is issued, together with the list of outbound calls it makes;
* the `POST /api/boxnow/delivery-request` handler of the earliest revision
  (src/unnamed/part_000), which fetches the auth token before validating;
* the token-cache transition of the weight-rule revision (`authToken`,
  src/src/index.js lines 355-386) as a pure step function.

Modeling conventions, used throughout:

* JSON scalar values are modeled as `JsVal` (finite number or string);
  `Option JsVal` models a possibly absent (`undefined`/`null`) field, which is
  exactly what the `??` chains in the source skip.
* A JavaScript number that may be `NaN` is modeled as `Option Rat` with `none`
  for `NaN`.  Non-finite infinities are collapsed into `none` as well: every
  code path embedded here guards with `Number.isFinite` or `?:`-truthiness, and
  no claim distinguishes `Infinity` from `NaN`.
* `Number(string)` is modeled for decimal literals (sign, integer/fraction
  digits, exponent, empty string is 0); unsupported literal forms (hex etc.)
  are mapped to `none`(NaN).  No claim depends on those forms.
* String-returning JS number formatting is modeled exactly for the integral
  and two-decimal values the code produces.
-/

namespace BoxNow

/-- JSON scalar value as the handlers see it: a finite number or a string. -/
inductive JsVal where
  | num (q : ℚ)
  | str (s : String)
deriving DecidableEq, Repr

/-- JS truthiness of a value: numbers are falsy iff zero, strings iff empty. -/
def jsTruthy : JsVal → Bool
  | .num q => q ≠ 0
  | .str s => s ≠ ""

/-- JS truthiness of a possibly absent value (`undefined`/`null` are falsy). -/
def jsTruthyOpt : Option JsVal → Bool
  | none => false
  | some v => jsTruthy v

/-- JS `a || d` for a possibly absent `a`: `d` unless `a` is present and truthy. -/
def jsOr (a : Option JsVal) (d : JsVal) : JsVal :=
  match a with
  | none => d
  | some v => if jsTruthy v then v else d

/-- Model of JS number-to-string conversion.  Exact for integers, which is all
the embedded code paths ever stringify; other rationals get their Lean
representation (no claim depends on that form). -/
def jsNumToString (q : ℚ) : String := toString q

/-- JS `String(x)` on a JSON scalar. -/
def jsToString : JsVal → String
  | .num q => jsNumToString q
  | .str s => s

/-- JS `String(x)` when `x` may be `undefined`. -/
def jsToStringOpt : Option JsVal → String
  | none => "undefined"
  | some v => jsToString v

/-- Numeric value of a digit character. -/
def digitVal (c : Char) : ℕ := c.toNat - 48

/-- Natural number denoted by a list of digit characters (most significant
first). -/
def digitsToNat (l : List Char) : ℕ :=
  l.foldl (fun a c => 10 * a + digitVal c) 0

/-- Whitespace predicate used to model the JS `\s`/trim behaviour. -/
def wsChar (c : Char) : Bool := c.isWhitespace

/-- Trim whitespace from both ends of a character list (models JS
`String.prototype.trim` and the trimming `Number()` performs). -/
def charTrim (l : List Char) : List Char :=
  ((l.dropWhile wsChar).reverse.dropWhile wsChar).reverse

/-- Fraction digits of a decimal mantissa: the digits following the dot. -/
def fracDigits (cs : List Char) : List Char :=
  (cs.dropWhile Char.isDigit).tail.takeWhile Char.isDigit

/-- Parse a decimal mantissa (digits, optionally `.` and fraction digits) from
the front of a character list; returns its value and the rest.  At least one
digit must be present on one side of the dot. -/
def parseDec (cs : List Char) : Option (ℚ × List Char) :=
  if (cs.dropWhile Char.isDigit).head? = some '.' then
    if cs.takeWhile Char.isDigit = [] ∧ fracDigits cs = [] then none
    else some ((digitsToNat (cs.takeWhile Char.isDigit) : ℚ) +
      (digitsToNat (fracDigits cs) : ℚ) / (10 : ℚ) ^ (fracDigits cs).length,
      (cs.dropWhile Char.isDigit).tail.dropWhile Char.isDigit)
  else if cs.takeWhile Char.isDigit = [] then none
  else some ((digitsToNat (cs.takeWhile Char.isDigit) : ℚ), cs.dropWhile Char.isDigit)

/-- Rest of the input after the exponent marker and its optional sign. -/
def expRest (cs : List Char) : List Char :=
  if cs.tail.head? = some '+' ∨ cs.tail.head? = some '-' then cs.tail.tail else cs.tail

/-- Parse the optional exponent part of a decimal literal; succeeds only if the
whole rest of the input is consumed. -/
def parseExpPart (cs : List Char) : Option ℤ :=
  if cs = [] then some 0
  else if cs.head? = some 'e' ∨ cs.head? = some 'E' then
    if (expRest cs).takeWhile Char.isDigit = [] ∨ (expRest cs).dropWhile Char.isDigit ≠ [] then
      none
    else
      some ((if cs.tail.head? = some '-' then (-1 : ℤ) else 1) *
        (digitsToNat ((expRest cs).takeWhile Char.isDigit) : ℤ))
  else none

/-- Parse an unsigned decimal literal occupying the whole character list.
The literal `Infinity` is non-finite and is mapped to `none` (see the
conventions above). -/
def parseUnsigned (cs : List Char) : Option ℚ :=
  if cs = "Infinity".data then none
  else
    (parseDec cs).bind (fun mr =>
      (parseExpPart mr.2).map (fun e => mr.1 * (10 : ℚ) ^ e))

/-- Model of JS `Number(s)` for a string `s`: trim, empty means 0, optional
sign, decimal literal; `none` models `NaN` (and non-finite results). -/
def jsNumberChars (l : List Char) : Option ℚ :=
  if charTrim l = [] then some 0
  else if (charTrim l).head? = some '+' then parseUnsigned (charTrim l).tail
  else if (charTrim l).head? = some '-' then (parseUnsigned (charTrim l).tail).map (fun q => -q)
  else parseUnsigned (charTrim l)

/-- JS `Number(s)` on a string. -/
def jsNumberOfString (s : String) : Option ℚ := jsNumberChars s.data

/-- JS `Number(x)` on a JSON scalar (`none` = `NaN`). -/
def jsToNumber : JsVal → Option ℚ
  | .num q => some q
  | .str s => jsNumberOfString s

/-- JS `Number(x)` when `x` may be `undefined` (`Number(undefined)` is `NaN`). -/
def jsToNumberOpt : Option JsVal → Option ℚ
  | none => none
  | some v => jsToNumber v

/-- JS `Math.round`: round half toward positive infinity. -/
def jsRound (q : ℚ) : ℤ := ⌊q + 1 / 2⌋

/-- Model of JS `x.toFixed(2)` for a finite `x`: rounding to two decimals,
formatted with exactly two fraction digits. -/
def jsToFixed2 (q : ℚ) : String :=
  let n : ℤ := jsRound (q * 100)
  let m : ℕ := n.natAbs
  let ip : ℕ := m / 100
  let fp : ℕ := m % 100
  (if n < 0 then "-" else "") ++ toString ip ++ "." ++
    (if fp < 10 then "0" ++ toString fp else toString fp)

/-- Model of JS `toLowerCase` (ASCII letters; no embedded label set contains
non-ASCII characters). -/
def jsToLower (s : String) : String := String.mk (s.data.map Char.toLower)

/-! ## Unit normalizer (src/src/index.js) -/

/-- Prepaid-like payment labels recognized by `mapPaymentModeToBoxNow`
(src/src/index.js line 332). -/
def prepaidLabels : List String :=
  ["card", "stripe", "paypal", "bank_transfer", "bank transfer", "prepaid"]

/-- Collect-on-delivery payment labels recognized by `mapPaymentModeToBoxNow`
(src/src/index.js line 333, the weight-rule revision). -/
def codLabels : List String :=
  ["cod", "cash_on_delivery", "cash on delivery", "boxnow_cod", "pay_on_go",
   "pay on go", "boxnow_pay_on_the_go"]

/-- Embeds `mapPaymentModeToBoxNow` (src/src/index.js lines 330-337):
lowercase the label (missing/falsy becomes the empty string), return cod for a
recognized cod label, prepaid for a recognized prepaid label, and prepaid as
the default for anything else. -/
def mapPaymentModeToBoxNow (method : Option JsVal) : String :=
  if codLabels.contains (jsToLower (jsToString (jsOr method (.str "")))) then "cod"
  else if prepaidLabels.contains (jsToLower (jsToString (jsOr method (.str "")))) then "prepaid"
  else "prepaid"

/-- Whitespace-stripped form of the phone input
(`String(phoneRaw || "").trim().replace(/\s+/g, "")`, src/src/index.js
line 318): removing every whitespace character subsumes the trim. -/
def phoneStripped (phoneRaw : Option JsVal) : List Char :=
  (jsToString (jsOr phoneRaw (.str ""))).data.filter (fun c => !wsChar c)

/-- Embeds `normalizePhone` (src/src/index.js lines 317-328).  The regex
`replace(/\D/g, "")` is modeled by filtering to digits; `startsWith` tests by
inspecting the leading characters. -/
def normalizePhone (phoneRaw : Option JsVal) : String :=
  let p := phoneStripped phoneRaw
  if p = [] then ""
  else if p.head? = some '+' then "+" ++ String.mk (p.tail.filter Char.isDigit)
  else
    let q := p.filter Char.isDigit
    if q.take 2 = ['6', '9'] then "+30" ++ String.mk q
    else if q.take 2 = ['3', '0'] then "+" ++ String.mk q
    else if q.length = 10 then "+30" ++ String.mk q
    else "+" ++ String.mk q

/-- Modelled from the claim wording (claim C6), not from the source: the rule
chain the claim describes, which has no special case for an input that is
empty after whitespace removal — such an input falls through to the last
resort and gets a bare `+`.  Compare with `normalizePhone`. -/
def normalizePhoneClaim (phoneRaw : Option JsVal) : String :=
  let p := phoneStripped phoneRaw
  if p.head? = some '+' then "+" ++ String.mk (p.tail.filter Char.isDigit)
  else
    let q := p.filter Char.isDigit
    if q.take 2 = ['6', '9'] then "+30" ++ String.mk q
    else if q.take 2 = ['3', '0'] then "+" ++ String.mk q
    else if q.length = 10 then "+30" ++ String.mk q
    else "+" ++ String.mk q

/-- Embeds `normalizePhone` of the part_001 revision (src/unnamed/part_001
lines 39-65): keep digits and plus signs, rewrite a leading `00` to `+`,
then prefix rules that differ from the index.js variant (no mobile-prefix
rule, and the last resort returns bare digits without a `+`). -/
def normalizePhonePart1 (raw : Option JsVal) : String :=
  let s0 := charTrim (jsToString (jsOr raw (.str ""))).data
  if s0 = [] then ""
  else
    let s1 := s0.filter (fun c => c.isDigit || c = '+')
    let s2 := match s1 with
      | '0' :: '0' :: r => '+' :: r
      | _ => s1
    let digitsOnly := s2.filter Char.isDigit
    if s2.head? ≠ some '+' ∧ digitsOnly.length = 10 then "+30" ++ String.mk digitsOnly
    else if s2.head? ≠ some '+' ∧ digitsOnly.take 2 = ['3', '0'] then
      "+" ++ String.mk digitsOnly
    else if s2.head? = some '+' then "+" ++ String.mk digitsOnly
    else String.mk digitsOnly

/-- Replace the first comma with a dot (JS `s.replace(",", ".")` replaces only
the first occurrence). -/
def replaceFirstComma : List Char → List Char
  | [] => []
  | c :: r => if c = ',' then '.' :: r else c :: replaceFirstComma r

/-- The final ternary of `parseKg`:
`Number.isFinite(n) && n > 0 ? n : 0` (`none` is the non-finite case). -/
def parseKgVal : Option ℚ → ℚ
  | none => 0
  | some n => if 0 < n then n else 0

/-- Embeds `parseKg` (src/src/index.js lines 340-345): null/undefined is 0;
otherwise stringify, trim, swap the first comma for a dot, convert with
`Number`, and keep the result only if it is a finite positive number. -/
def parseKg (x : Option JsVal) : ℚ :=
  match x with
  | none => 0
  | some v => parseKgVal (jsNumberChars (replaceFirstComma (charTrim (jsToString v).data)))

/-- Embeds `kgToGrams` (src/src/index.js lines 348-352). -/
def kgToGrams (kg : ℚ) : ℤ :=
  if kg ≤ 0 then 0 else jsRound (kg * 1000)

/-- Embeds `normalizeWeightToGrams` (src/src/index.js lines 848-856, third
revision): non-finite or non-positive is 0; a value up to 50 is taken as
kilograms and converted to grams; a larger value is taken as grams already. -/
def normalizeWeightToGrams (w : Option JsVal) : ℤ :=
  match jsToNumberOpt w with
  | none => 0
  | some n =>
      if n ≤ 0 then 0
      else if n ≤ 50 then jsRound (n * 1000)
      else jsRound n

/-- Embeds `normalizeCompartmentSize` (src/src/index.js lines 841-845):
`Number(x)` if it is exactly 1, 2 or 3, else the medium size 2. -/
def normalizeCompartmentSize (x : Option JsVal) : ℚ :=
  match jsToNumberOpt x with
  | none => 2
  | some n => if n = 1 ∨ n = 2 ∨ n = 3 then n else 2

/-- Embeds `safeMoney` (src/src/index.js lines 312-315): `Number(n || 0)`
formatted to two decimals, with `"0.00"` for a non-finite result. -/
def safeMoney (v : Option JsVal) : String :=
  match jsToNumber (jsOr v (.num 0)) with
  | some q => jsToFixed2 q
  | none => "0.00"

/-- Trim a string at both ends (JS `trim()`). -/
def jsTrimStr (s : String) : String := String.mk (charTrim s.data)

/-! ## The delivery-requests handler of the weight-rule revision
(src/src/index.js lines 508-670).

The inbound JSON body is modeled by `OrderInput`; every field the handler
reads is an optional JSON scalar (or nested object / array).  The handler is
embedded as a pure function up to the point where the outbound carrier call is
issued; `handlerBCalls` records the outbound calls in source order. -/

/-- Nested `customer` object of the inbound body. -/
structure CustomerInput where
  name : Option JsVal := none
  email : Option JsVal := none
  phone : Option JsVal := none
deriving DecidableEq, Repr

/-- Nested `destination` object of the inbound body. -/
structure DestinationInput where
  locationId : Option JsVal := none
deriving DecidableEq, Repr

/-- Entry of the inbound `items` array (the fields the handlers read). -/
structure ItemInput where
  weightKg : Option JsVal := none
  weight : Option JsVal := none
  quantity : Option JsVal := none
  compartmentSize : Option JsVal := none
deriving DecidableEq, Repr

/-- Inbound body of `POST /api/boxnow/delivery-requests`: all field names the
handler consults, each possibly absent. -/
structure OrderInput where
  customer : Option CustomerInput := none
  contactName : Option JsVal := none
  firstName : Option JsVal := none
  lastName : Option JsVal := none
  contactEmail : Option JsVal := none
  email : Option JsVal := none
  contactPhone : Option JsVal := none
  phone : Option JsVal := none
  destinationLocationId : Option JsVal := none
  destination : Option DestinationInput := none
  selectedLockerId : Option JsVal := none
  lockerId : Option JsVal := none
  originLocationId : Option JsVal := none
  orderNumber : Option JsVal := none
  invoiceValue : Option JsVal := none
  total : Option JsVal := none
  amountToBeCollected : Option JsVal := none
  paymentMode : Option JsVal := none
  weightKg : Option JsVal := none
  weight : Option JsVal := none
  items : Option (List ItemInput) := none
  parcelName : Option JsVal := none
  compartmentSize : Option JsVal := none
deriving DecidableEq, Repr

/-- Deployment configuration consulted by the handler: the force-prepaid flag
(`BOXNOW_FORCE_PREPAID_ST`), the COD enable flag (`BOXNOW_ALLOW_COD`) and the
default origin location id (`BOXNOW_WAREHOUSE_ID`, default `"2"`). -/
structure Config where
  forcePrepaid : Bool
  allowCod : Bool
  defaultOriginLocationId : String
deriving DecidableEq, Repr

/-- Customer name resolution (src/src/index.js lines 512-515): nested
customer name, else `contactName`, else the trimmed first/last-name template. -/
def customerNameB (o : OrderInput) : JsVal :=
  ((o.customer.bind (·.name)) <|> o.contactName).getD
    (.str (jsTrimStr
      (jsToString (jsOr o.firstName (.str "")) ++ " " ++
        jsToString (jsOr o.lastName (.str "")))))

/-- Customer email resolution (line 517). -/
def customerEmailB (o : OrderInput) : Option JsVal :=
  (o.customer.bind (·.email)) <|> o.contactEmail <|> o.email

/-- Raw customer phone resolution (line 518). -/
def customerPhoneRawB (o : OrderInput) : Option JsVal :=
  (o.customer.bind (·.phone)) <|> o.contactPhone <|> o.phone

/-- Normalized customer phone (line 519). -/
def customerPhoneB (o : OrderInput) : String :=
  normalizePhone (customerPhoneRawB o)

/-- Destination locker id resolution (lines 521-525). -/
def destinationLocationIdB (o : OrderInput) : Option JsVal :=
  o.destinationLocationId <|> (o.destination.bind (·.locationId)) <|>
    o.selectedLockerId <|> o.lockerId

/-- Origin location id (line 527): caller value or configured default. -/
def originLocationIdB (cfg : Config) (o : OrderInput) : String :=
  jsToString (jsOr o.originLocationId (.str cfg.defaultOriginLocationId))

/-- Order number (line 529): caller value or a timestamp-based identifier. -/
def orderNumberB (nowMs : ℕ) (o : OrderInput) : String :=
  jsToString (jsOr o.orderNumber (.str ("ORD-" ++ toString nowMs)))

/-- Invoice value as a number (line 530); `none` models `NaN`. -/
def invoiceValueNumB (o : OrderInput) : Option ℚ :=
  jsToNumber ((o.invoiceValue <|> o.total <|> o.amountToBeCollected).getD (.num 0))

/-- Invoice value as a two-decimal string (line 531). -/
def invoiceValueB (o : OrderInput) : String :=
  safeMoney ((invoiceValueNumB o).map JsVal.num)

/-- Resolved payment mode (lines 533-535): mapped label, forced to prepaid by
the force-prepaid flag, and COD downgraded to prepaid when COD is disabled. -/
def paymentModeB (cfg : Config) (o : OrderInput) : String :=
  let pm0 := mapPaymentModeToBoxNow o.paymentMode
  let pm1 := if cfg.forcePrepaid then "prepaid" else pm0
  if pm1 = "cod" ∧ cfg.allowCod = false then "prepaid" else pm1

/-- Amount to be collected (lines 537-538): the caller amount (else the
invoice value) when COD, else the literal `"0.00"`. -/
def amountToBeCollectedB (cfg : Config) (o : OrderInput) : String :=
  if paymentModeB cfg o = "cod" then
    safeMoney (o.amountToBeCollected <|> (invoiceValueNumB o).map JsVal.num)
  else "0.00"

/-- Per-item quantity factor in the weight sum (line 558):
`(Number(it.quantity || 1) || 1)`. -/
def itemQuantityB (it : ItemInput) : ℚ :=
  match jsToNumber (jsOr it.quantity (.num 1)) with
  | none => 1
  | some q => if q = 0 then 1 else q

/-- Per-item weight in kilograms (line 558): `parseKg(it.weightKg ?? it.weight ?? 0)`. -/
def itemWeightKgB (it : ItemInput) : ℚ :=
  parseKg (some ((it.weightKg <|> it.weight).getD (.num 0)))

/-- Resolved total weight in kilograms (lines 555-559): the explicit total if
it parses to a nonzero value, else the sum over the items array.  The result
is always a finite rational, so the `Number.isFinite` guard of line 561 is
subsumed by the sign check. -/
def totalWeightKgB (o : OrderInput) : ℚ :=
  let w1 := parseKg (some ((o.weightKg <|> o.weight).getD (.num 0)))
  if w1 ≠ 0 then w1
  else
    match o.items with
    | some items => items.foldl (fun sum it => sum + itemWeightKgB it * itemQuantityB it) 0
    | none => 0

/-- Compartment-size rule (line 580): medium (2) up to 5 kg, large (3) above. -/
def compartmentSizeOfWeightB (w : ℚ) : ℕ :=
  if w ≤ 5 then 2 else 3

/-- Contact block of the outbound delivery request. -/
structure DeliveryContact where
  locationId : String
  contactName : String
  contactEmail : String
  contactNumber : String
  country : String
deriving DecidableEq, Repr

/-- Parcel entry of the outbound delivery request. -/
structure DeliveryItem where
  id : String
  name : String
  value : String
  weight : ℤ
  compartmentSize : ℕ
deriving DecidableEq, Repr

/-- Outbound delivery request payload (lines 587-615). -/
structure DeliveryRequest where
  orderNumber : String
  invoiceValue : String
  paymentMode : String
  amountToBeCollected : String
  origin : DeliveryContact
  destination : DeliveryContact
  items : List DeliveryItem
deriving DecidableEq, Repr

/-- Builds the outbound payload (lines 587-615): same contact block on origin
and destination, one synthetic parcel carrying the aggregate weight in grams
and the compartment size derived from the weight rule. -/
def buildPayloadB (cfg : Config) (nowMs : ℕ) (o : OrderInput) : DeliveryRequest :=
  { orderNumber := orderNumberB nowMs o
    invoiceValue := invoiceValueB o
    paymentMode := paymentModeB cfg o
    amountToBeCollected := amountToBeCollectedB cfg o
    origin :=
      { locationId := originLocationIdB cfg o
        contactName := jsToString (customerNameB o)
        contactEmail := jsToStringOpt (customerEmailB o)
        contactNumber := customerPhoneB o
        country := "GR" }
    destination :=
      { locationId := jsToStringOpt (destinationLocationIdB o)
        contactName := jsToString (customerNameB o)
        contactEmail := jsToStringOpt (customerEmailB o)
        contactNumber := customerPhoneB o
        country := "GR" }
    items :=
      [{ id := "1"
         name := jsToString (jsOr o.parcelName (.str "Order"))
         value := invoiceValueB o
         weight := kgToGrams (totalWeightKgB o)
         compartmentSize := compartmentSizeOfWeightB (totalWeightKgB o) }] }

/-- Outcome of the handler up to the outbound carrier call: a 400 rejection
(carrying the machine-readable error string of the JSON body) or the payload
submitted to the carrier.  The human-readable message fields of the 400
bodies are not modeled. -/
inductive HandlerResult where
  | reject400 (error : String)
  | proceed (payload : DeliveryRequest)
deriving DecidableEq, Repr

/-- Embeds the control flow of the handler (lines 540-585 and on success the
submission of `buildPayloadB`): destination check, contact check, missing or
excessive weight checks, compartment guard, then the outbound call. -/
def handlerB (cfg : Config) (nowMs : ℕ) (o : OrderInput) : HandlerResult :=
  if jsTruthyOpt (destinationLocationIdB o) = false then
    .reject400 "Missing destinationLocationId"
  else if jsTruthy (customerNameB o) = false ∨ jsTruthyOpt (customerEmailB o) = false ∨
      customerPhoneB o = "" then
    .reject400 "Missing customer contact fields (name/email/phone)"
  else if totalWeightKgB o ≤ 0 then
    .reject400 "MISSING_WEIGHT"
  else if 12 < totalWeightKgB o then
    .reject400 "BOXNOW_MAX_WEIGHT_EXCEEDED"
  else if originLocationIdB cfg o = "2" ∧
      ([1, 2, 3].contains (compartmentSizeOfWeightB (totalWeightKgB o))) = false then
    .reject400 "Invalid compartmentSize (must be 1/2/3)"
  else
    .proceed (buildPayloadB cfg nowMs o)

/-- An outbound network call of a handler execution. -/
inductive NetworkCall where
  | tokenExchange
  | deliveryRequest
deriving DecidableEq, Repr

/-- Outbound calls of the weight-rule handler, in source order: every fetch is
issued by `boxnowApiFetch` (line 619), which runs only after all validation
has passed; `authToken` inside it performs the token exchange only on a cache
miss. -/
def handlerBCalls (cfg : Config) (nowMs : ℕ) (o : OrderInput)
    (tokenCached : Bool) : List NetworkCall :=
  match handlerB cfg nowMs o with
  | .reject400 _ => []
  | .proceed _ => (if tokenCached then [] else [.tokenExchange]) ++ [.deliveryRequest]

/-! ## The delivery-request handler of the earliest revision
(src/unnamed/part_000 lines 51-132). -/

/-- Entry of the inbound `items` array of the part_000 handler. -/
structure Item0 where
  name : Option JsVal := none
  quantity : Option JsVal := none
  price : Option JsVal := none
  weight : Option JsVal := none
deriving DecidableEq, Repr

/-- Inbound body of `POST /api/boxnow/delivery-request` (part_000). -/
structure Order0 where
  orderNumber : Option JsVal := none
  invoiceValue : Option JsVal := none
  paymentMode : Option JsVal := none
  amountToBeCollected : Option JsVal := none
  destinationLocationId : Option JsVal := none
  customerName : Option JsVal := none
  customerEmail : Option JsVal := none
  customerPhone : Option JsVal := none
  items : Option (List Item0) := none
deriving DecidableEq, Repr

/-- Embeds the part_000 `safeMoney` (line 78):
`(v) => Number(Number(v).toFixed(2))` — a NUMBER, not a string; `none` models
`NaN`. -/
def safeMoney0 (v : Option JsVal) : Option ℚ :=
  (jsToNumberOpt v).map (fun q => (jsRound (q * 100) : ℚ) / 100)

/-- Parcel entry of the part_000 outbound payload (lines 98-104). -/
structure Payload0Item where
  id : String
  name : String
  quantity : Option ℚ
  value : Option ℚ
  weight : Option ℚ
deriving DecidableEq, Repr

/-- Outbound payload of the part_000 handler (lines 80-105).  Note that
`paymentMode` is the raw caller value (defaulted to `"prepaid"`), and
`amountToBeCollected` is the caller value passed through `safeMoney`
unconditionally — it is not derived from the payment mode. -/
structure Payload0 where
  orderNumber : String
  invoiceValue : Option ℚ
  paymentMode : JsVal
  amountToBeCollected : Option ℚ
  originLocationId : String
  destinationLocationId : String
  contactName : String
  contactEmail : Option JsVal
  contactNumber : String
  items : List Payload0Item
deriving DecidableEq, Repr

/-- Builds the part_000 outbound payload (lines 80-105). -/
def buildPayload0 (o : Order0) : Payload0 :=
  { orderNumber := jsToStringOpt o.orderNumber
    invoiceValue := safeMoney0 o.invoiceValue
    paymentMode := jsOr o.paymentMode (.str "prepaid")
    amountToBeCollected := safeMoney0 (some (jsOr o.amountToBeCollected (.num 0)))
    originLocationId := "2"
    destinationLocationId := jsToStringOpt o.destinationLocationId
    contactName := jsToStringOpt o.customerName
    contactEmail := if jsTruthyOpt o.customerEmail then o.customerEmail else none
    contactNumber := jsToStringOpt o.customerPhone
    items := (o.items.getD []).enum.map (fun p =>
      { id := toString (p.1 + 1)
        name := jsToString (jsOr p.2.name (.str "Product"))
        quantity := jsToNumber (jsOr p.2.quantity (.num 1))
        value := safeMoney0 (some (jsOr p.2.price (.num 0)))
        weight := jsToNumber (jsOr p.2.weight (.num 1)) }) }

/-- Whether the items array is absent or empty
(`!Array.isArray(items) || items.length === 0`, lines 72-73). -/
def itemsMissing0 (o : Order0) : Bool :=
  match o.items with
  | none => true
  | some l => l.isEmpty

/-- Outcome of the part_000 handler after the token fetch: the validation
rejection of lines 67-76 or the submitted payload. -/
inductive Handler0Result where
  | reject400 (error : String)
  | proceed (payload : Payload0)
deriving DecidableEq, Repr

/-- Embeds the validation and payload construction of the part_000 handler
(lines 55-105). -/
def handler0Core (o : Order0) : Handler0Result :=
  if jsTruthyOpt o.orderNumber = false ∨ jsTruthyOpt o.destinationLocationId = false ∨
      jsTruthyOpt o.customerName = false ∨ jsTruthyOpt o.customerPhone = false ∨
      itemsMissing0 o = true then
    .reject400 "Missing required fields"
  else
    .proceed (buildPayload0 o)

/-- Outbound calls of the part_000 handler, in source order: the handler
fetches the auth token FIRST (line 53, before reading or validating the
body), so a cold cache issues the token exchange even for a request that
fails validation; the delivery-request call itself happens only after
validation passes (line 107). -/
def handler0Calls (o : Order0) (tokenCached : Bool) : List NetworkCall :=
  (if tokenCached then [] else [.tokenExchange]) ++
    (match handler0Core o with
     | .reject400 _ => []
     | .proceed _ => [.deliveryRequest])

/-! ## Token cache of the weight-rule revision
(src/src/index.js lines 355-386). -/

/-- Process-wide token-cache state: `cachedToken` and `tokenExpiryMs`
(initially `null` / `0`, modeled as `none` / `some 0`; an expiry that became
`NaN` is `none`). -/
structure TokenState where
  cachedToken : Option JsVal
  tokenExpiryMs : Option ℚ
deriving DecidableEq, Repr

/-- Outcome of the credential-exchange HTTP call, as the handler observes it:
a non-ok status with a body, or a parsed JSON body with optional
`access_token` and `expires_in` fields. -/
inductive ExchangeOutcome where
  | failure (status : ℕ) (body : String)
  | success (accessToken : Option JsVal) (expiresIn : Option JsVal)
deriving DecidableEq, Repr

/-- Cache-hit test of `authToken` (line 362):
`cachedToken && now < tokenExpiryMs - 30_000`. -/
def tokenHitB (st : TokenState) (nowMs : ℚ) : Bool :=
  jsTruthyOpt st.cachedToken &&
    (match st.tokenExpiryMs with
     | some e => decide (nowMs < e - 30000)
     | none => false)

/-- Embeds `authToken` (lines 358-386) as a pure step: on a cache hit, return
the cached token with no call; otherwise issue exactly one exchange call and,
on success with a truthy token, cache it with expiry
`now + max(60, expiresIn - 300) * 1000` (line 384).  The two `Date.now()`
reads of the source are modeled by the single instant `nowMs`. -/
def authTokenB (st : TokenState) (nowMs : ℚ) (exch : ExchangeOutcome) :
    List NetworkCall × Except String (JsVal × TokenState) :=
  if tokenHitB st nowMs then ([], .ok (st.cachedToken.getD (.str ""), st))
  else
    ([.tokenExchange],
      match exch with
      | .failure status body =>
          .error ("BoxNow auth failed: " ++ toString status ++ " " ++ body.take 500)
      | .success tokOpt expOpt =>
          let expiresIn := jsToNumber (jsOr expOpt (.num 3600))
          if jsTruthyOpt tokOpt = false then .error "BoxNow auth missing access_token"
          else
            .ok (tokOpt.getD (.str ""),
              { cachedToken := tokOpt
                tokenExpiryMs := expiresIn.map (fun e => nowMs + max 60 (e - 300) * 1000) }))

/-! ## Compartment-size handling of the third revision
(src/src/index.js lines 972-1104).  That revision resolves the customer,
destination and origin fields exactly as the weight-rule revision does, so
the same resolvers apply; only its compartment-size logic differs. -/

/-- Compartment size of the third revision (lines 1038-1042):
`normalizeCompartmentSize(order.compartmentSize ?? order.items?.[0]?.compartmentSize ?? 2)`. -/
def compartmentSizeC (o : OrderInput) : ℚ :=
  normalizeCompartmentSize
    (some ((o.compartmentSize <|>
      ((o.items.bind List.head?).bind (fun it => it.compartmentSize))).getD (.num 2)))

/-- Compartment-size guard condition of the third revision (line 1081):
`originLocationId === "2" && ![1, 2, 3].includes(compartmentSize)`; the 400
response of line 1082 is sent exactly when this is true. -/
def compartmentGuardC (cfg : Config) (o : OrderInput) : Bool :=
  decide (originLocationIdB cfg o = "2") &&
    !([(1 : ℚ), 2, 3].contains (compartmentSizeC o))

/-! ## Sample inputs used by witnesses and counterexamples -/

/-- Default deployment configuration: COD disabled, no forced prepaid,
warehouse origin `"2"` (the env defaults of the weight-rule revision). -/
def sampleConfig : Config :=
  { forcePrepaid := false, allowCod := false, defaultOriginLocationId := "2" }

/-- A complete customer block. -/
def sampleCustomer : CustomerInput :=
  { name := some (.str "A"), email := some (.str "a@b.com"),
    phone := some (.str "6912345678") }

/-- A well-formed order with the given weight field. -/
def sampleOrder (w : JsVal) : OrderInput :=
  { destinationLocationId := some (.str "77")
    customer := some sampleCustomer
    orderNumber := some (.str "ORD-1")
    invoiceValue := some (.str "10")
    paymentMode := some (.str "card")
    weightKg := some w }

/-- The part_000 inbound body of a valid prepaid order whose caller also
supplies a nonzero `amountToBeCollected`. -/
def samplePrepaidOrder0 : Order0 :=
  { orderNumber := some (.str "ORD-1")
    destinationLocationId := some (.str "77")
    customerName := some (.str "A")
    customerPhone := some (.str "6912345678")
    paymentMode := some (.str "prepaid")
    amountToBeCollected := some (.num 5)
    items := some [{ name := some (.str "X"), quantity := some (.num 1),
                     price := some (.num 5), weight := some (.num 1) }] }

/-- The empty part_000 inbound body (fails validation). -/
def emptyOrder0 : Order0 := {}

/-- The initial token-cache state of the process (`cachedToken = null`,
`tokenExpiryMs = 0`). -/
def freshTokenState : TokenState := { cachedToken := none, tokenExpiryMs := some 0 }

/-! ## Evaluation lemmas for the sample inputs -/

/-- Digit-value evaluation lemmas for the norm_num pipelines. -/
lemma digitVal_0 : digitVal '0' = 0 := by decide

lemma digitVal_1 : digitVal '1' = 1 := by decide

lemma digitVal_2 : digitVal '2' = 2 := by decide

lemma digitVal_3 : digitVal '3' = 3 := by decide

lemma digitVal_4 : digitVal '4' = 4 := by decide

lemma digitVal_5 : digitVal '5' = 5 := by decide

lemma digitVal_6 : digitVal '6' = 6 := by decide

lemma digitVal_7 : digitVal '7' = 7 := by decide

lemma digitVal_8 : digitVal '8' = 8 := by decide

lemma digitVal_9 : digitVal '9' = 9 := by decide


/-- The sample order resolves weight `.num 0` to total 0 kg. -/
lemma totalWeight_sample_num0 : totalWeightKgB (sampleOrder (.num 0)) = 0 := by
  norm_num +decide [totalWeightKgB, sampleOrder, parseKg, parseKgVal, jsToString, jsNumToString, charTrim,
    replaceFirstComma, jsNumberChars, parseUnsigned, parseDec, parseExpPart, expRest, fracDigits, digitsToNat, wsChar,
    digitVal_0, digitVal_1, digitVal_2, digitVal_3, digitVal_4, digitVal_5, digitVal_6,
    digitVal_7, digitVal_8, digitVal_9]

/-- The sample order resolves weight `"12.001"` to total 12.001 kg. -/
lemma totalWeight_sample_12001 : totalWeightKgB (sampleOrder (.str "12.001")) = 12001 / 1000 := by
  norm_num +decide [totalWeightKgB, sampleOrder, parseKg, parseKgVal, jsToString, jsNumToString, charTrim,
    replaceFirstComma, jsNumberChars, parseUnsigned, parseDec, parseExpPart, expRest, fracDigits, digitsToNat, wsChar,
    digitVal_0, digitVal_1, digitVal_2, digitVal_3, digitVal_4, digitVal_5, digitVal_6,
    digitVal_7, digitVal_8, digitVal_9]

/-- The sample order resolves weight `"12.000"` to total 12 kg exactly. -/
lemma totalWeight_sample_12 : totalWeightKgB (sampleOrder (.str "12.000")) = 12 := by
  norm_num +decide [totalWeightKgB, sampleOrder, parseKg, parseKgVal, jsToString, jsNumToString, charTrim,
    replaceFirstComma, jsNumberChars, parseUnsigned, parseDec, parseExpPart, expRest, fracDigits, digitsToNat, wsChar,
    digitVal_0, digitVal_1, digitVal_2, digitVal_3, digitVal_4, digitVal_5, digitVal_6,
    digitVal_7, digitVal_8, digitVal_9]

/-- The sample order resolves weight `"3"` to total 3 kg. -/
lemma totalWeight_sample_3 : totalWeightKgB (sampleOrder (.str "3")) = 3 := by
  norm_num +decide [totalWeightKgB, sampleOrder, parseKg, parseKgVal, jsToString, jsNumToString, charTrim,
    replaceFirstComma, jsNumberChars, parseUnsigned, parseDec, parseExpPart, expRest, fracDigits, digitsToNat, wsChar,
    digitVal_0, digitVal_1, digitVal_2, digitVal_3, digitVal_4, digitVal_5, digitVal_6,
    digitVal_7, digitVal_8, digitVal_9]

/-- The sample order resolves weight `"6"` to total 6 kg. -/
lemma totalWeight_sample_6 : totalWeightKgB (sampleOrder (.str "6")) = 6 := by
  norm_num +decide [totalWeightKgB, sampleOrder, parseKg, parseKgVal, jsToString, jsNumToString, charTrim,
    replaceFirstComma, jsNumberChars, parseUnsigned, parseDec, parseExpPart, expRest, fracDigits, digitsToNat, wsChar,
    digitVal_0, digitVal_1, digitVal_2, digitVal_3, digitVal_4, digitVal_5, digitVal_6,
    digitVal_7, digitVal_8, digitVal_9]

/-- The sample order passes the destination and contact validation. -/
lemma sample_validation (w : JsVal) :
    jsTruthyOpt (destinationLocationIdB (sampleOrder w)) = true ∧
    jsTruthy (customerNameB (sampleOrder w)) = true ∧
    jsTruthyOpt (customerEmailB (sampleOrder w)) = true ∧
    customerPhoneB (sampleOrder w) ≠ "" := by
  refine ⟨rfl, rfl, rfl, ?_⟩
  show normalizePhone (customerPhoneRawB (sampleOrder w)) ≠ ""
  have : customerPhoneRawB (sampleOrder w) = some (.str "6912345678") := rfl
  rw [this]
  decide

/-! ## Claim theorems -/

/-- Helper: a handler run that submits a payload submits exactly
`buildPayloadB`. -/
lemma handlerB_proceed_eq (cfg : Config) (nowMs : ℕ) (o : OrderInput)
    (p : DeliveryRequest) (hp : handlerB cfg nowMs o = .proceed p) :
    p = buildPayloadB cfg nowMs o := by
  unfold handlerB at hp
  split_ifs at hp
  all_goals simp_all

/-- C1: in the weight-rule revision, for every delivery request that passes
the destination and contact validation, a resolved total weight that is zero
or negative (the resolution maps invalid weights to 0) is rejected 400 with
error MISSING_WEIGHT; a resolved total weight above 12 kg is rejected 400
with error BOXNOW_MAX_WEIGHT_EXCEEDED; a total weight of exactly 12 kg passes
the ceiling check and the request is submitted to the carrier. -/
theorem c1_weight_rules (cfg : Config) (nowMs : ℕ) (o : OrderInput)
    (hdest : jsTruthyOpt (destinationLocationIdB o) = true)
    (hname : jsTruthy (customerNameB o) = true)
    (hemail : jsTruthyOpt (customerEmailB o) = true)
    (hphone : customerPhoneB o ≠ "") :
    (totalWeightKgB o ≤ 0 → handlerB cfg nowMs o = .reject400 "MISSING_WEIGHT") ∧
    (12 < totalWeightKgB o → handlerB cfg nowMs o = .reject400 "BOXNOW_MAX_WEIGHT_EXCEEDED") ∧
    (totalWeightKgB o = 12 → handlerB cfg nowMs o = .proceed (buildPayloadB cfg nowMs o)) := by
  refine ⟨fun hw => ?_, fun hw => ?_, fun hw => ?_⟩
  · simp [handlerB, hdest, hname, hemail, hphone, hw]
  · have h0 : ¬ totalWeightKgB o ≤ 0 := by linarith
    simp [handlerB, hdest, hname, hemail, hphone, h0, hw]
  · have h0 : ¬ totalWeightKgB o ≤ 0 := by rw [hw]; norm_num
    have h12 : ¬ (12 : ℚ) < totalWeightKgB o := by rw [hw]; exact lt_irrefl 12
    have hsize : compartmentSizeOfWeightB (totalWeightKgB o) = 2 ∨
        compartmentSizeOfWeightB (totalWeightKgB o) = 3 := by
      unfold compartmentSizeOfWeightB
      split_ifs <;> simp
    rcases hsize with h | h <;>
      simp [handlerB, hdest, hname, hemail, hphone, h0, h12, h]

/-- Witness for C1 at concrete inputs: resolved weight 0 is rejected with
MISSING_WEIGHT, 12.001 with BOXNOW_MAX_WEIGHT_EXCEEDED, and exactly 12.000 is
accepted and submitted. -/
theorem c1_weight_rules_witness :
    handlerB sampleConfig 0 (sampleOrder (.num 0)) = .reject400 "MISSING_WEIGHT" ∧
    handlerB sampleConfig 0 (sampleOrder (.str "12.001")) =
      .reject400 "BOXNOW_MAX_WEIGHT_EXCEEDED" ∧
    handlerB sampleConfig 0 (sampleOrder (.str "12.000")) =
      .proceed (buildPayloadB sampleConfig 0 (sampleOrder (.str "12.000"))) := by
  obtain ⟨d0, n0, e0, p0⟩ := sample_validation (.num 0)
  obtain ⟨d1, n1, e1, p1⟩ := sample_validation (.str "12.001")
  obtain ⟨d2, n2, e2, p2⟩ := sample_validation (.str "12.000")
  refine ⟨(c1_weight_rules sampleConfig 0 _ d0 n0 e0 p0).1 ?_,
    (c1_weight_rules sampleConfig 0 _ d1 n1 e1 p1).2.1 ?_,
    (c1_weight_rules sampleConfig 0 _ d2 n2 e2 p2).2.2 ?_⟩
  · rw [totalWeight_sample_num0]
  · rw [totalWeight_sample_12001]; norm_num
  · exact totalWeight_sample_12

/-- C2 (amended): in the weight-rule revision of the delivery-requests
handler, for every configuration and every inbound order, whenever the
submitted payload has resolved paymentMode prepaid (including when forced by
the force-prepaid flag or by COD being disabled), its amountToBeCollected is
the literal string "0.00", regardless of any caller-supplied amount. -/
theorem c2_prepaid_amount_zero (cfg : Config) (nowMs : ℕ) (o : OrderInput)
    (p : DeliveryRequest) (hp : handlerB cfg nowMs o = .proceed p)
    (hpm : p.paymentMode = "prepaid") :
    p.amountToBeCollected = "0.00" := by
  have hb := handlerB_proceed_eq cfg nowMs o p hp
  subst hb
  simp only [buildPayloadB] at hpm ⊢
  simp [amountToBeCollectedB, hpm]

/-- Helper: the sample order of weight "3" passes all checks and is
submitted. -/
lemma sample3_proceeds :
    handlerB sampleConfig 0 (sampleOrder (.str "3")) =
      .proceed (buildPayloadB sampleConfig 0 (sampleOrder (.str "3"))) := by
  obtain ⟨d, n, e, p⟩ := sample_validation (.str "3")
  have h0 : ¬ totalWeightKgB (sampleOrder (.str "3")) ≤ 0 := by
    rw [totalWeight_sample_3]; norm_num
  have h12 : ¬ (12 : ℚ) < totalWeightKgB (sampleOrder (.str "3")) := by
    rw [totalWeight_sample_3]; norm_num
  have hsize : compartmentSizeOfWeightB (totalWeightKgB (sampleOrder (.str "3"))) = 2 ∨
      compartmentSizeOfWeightB (totalWeightKgB (sampleOrder (.str "3"))) = 3 := by
    unfold compartmentSizeOfWeightB
    split_ifs <;> simp
  rcases hsize with h | h <;> simp [handlerB, d, n, e, p, h0, h12, h]

/-- Witness for C2: the sample prepaid order is submitted with
amountToBeCollected "0.00". -/
theorem c2_prepaid_amount_zero_witness :
    (buildPayloadB sampleConfig 0 (sampleOrder (.str "3"))).amountToBeCollected = "0.00" := by
  refine c2_prepaid_amount_zero sampleConfig 0 (sampleOrder (.str "3")) _ sample3_proceeds ?_
  decide

/-- C2 counterexample: in the part_000 revision, a validated order whose
caller supplies paymentMode "prepaid" and amountToBeCollected 5 is submitted
with paymentMode "prepaid" yet amountToBeCollected 5 (a number, not the
string "0.00"): the invariant fails in that revision. -/
theorem c2_counterexample :
    handler0Core samplePrepaidOrder0 = .proceed (buildPayload0 samplePrepaidOrder0) ∧
    (buildPayload0 samplePrepaidOrder0).paymentMode = .str "prepaid" ∧
    (buildPayload0 samplePrepaidOrder0).amountToBeCollected = some 5 ∧
    (5 : ℚ) ≠ 0 := by
  refine ⟨?_, by decide, ?_, by norm_num⟩
  · unfold handler0Core
    split_ifs with h
    · exfalso
      simp [samplePrepaidOrder0, jsTruthyOpt, jsTruthy, itemsMissing0] at h
    · rfl
  · show safeMoney0 (some (jsOr (some (.num 5)) (.num 0))) = some 5
    have h5 : jsOr (some (JsVal.num 5)) (.num 0) = .num 5 := by
      simp [jsOr, jsTruthy]
    have hr : ((jsRound ((5 : ℚ) * 100) : ℤ) : ℚ) / 100 = 5 := by
      unfold jsRound
      norm_num
    simp [safeMoney0, h5, jsToNumberOpt, jsToNumber, hr]

/-- Helper: labels in the recognized prepaid set are not in the cod set. -/
lemma prepaid_not_cod (x : String) (hx : prepaidLabels.contains x = true) :
    codLabels.contains x = false := by
  have hmem : x ∈ prepaidLabels := by simpa using hx
  fin_cases hmem <;> decide

/-- Helper: the payment-mode mapper on a string label lowercases it and tests
the cod list, defaulting to prepaid. -/
lemma mapPaymentMode_label (s : String) :
    mapPaymentModeToBoxNow (some (.str s)) =
      if codLabels.contains (jsToLower s) then "cod" else "prepaid" := by
  unfold mapPaymentModeToBoxNow
  have hs : jsToString (jsOr (some (.str s)) (.str "")) = s := by
    by_cases h : s = "" <;> simp [jsOr, jsTruthy, h, jsToString]
  rw [hs]
  split_ifs <;> rfl

/-- C3: for every payment-method label (modeled as an optional JSON scalar):
the result of the mapper is always prepaid or cod; a string label whose
lowercased form is in the recognized cod set maps to cod; one in the
recognized prepaid set maps to prepaid; one in neither set maps to prepaid;
and a missing label maps to prepaid. -/
theorem c3_payment_mode_total (method : Option JsVal) :
    (mapPaymentModeToBoxNow method = "prepaid" ∨ mapPaymentModeToBoxNow method = "cod") ∧
    (∀ s : String, method = some (.str s) →
      (codLabels.contains (jsToLower s) = true → mapPaymentModeToBoxNow method = "cod") ∧
      (prepaidLabels.contains (jsToLower s) = true → mapPaymentModeToBoxNow method = "prepaid") ∧
      (codLabels.contains (jsToLower s) = false ∧ prepaidLabels.contains (jsToLower s) = false →
        mapPaymentModeToBoxNow method = "prepaid")) ∧
    (method = none → mapPaymentModeToBoxNow method = "prepaid") := by
  refine ⟨?_, fun s hs => ?_, fun h => ?_⟩
  · unfold mapPaymentModeToBoxNow
    split_ifs <;> simp
  · subst hs
    rw [mapPaymentMode_label]
    exact ⟨fun hc => if_pos hc,
      fun hp => by
        rw [if_neg (by rw [prepaid_not_cod (jsToLower s) hp]; exact Bool.false_ne_true)],
      fun hn => by rw [if_neg (by rw [hn.1]; exact Bool.false_ne_true)]⟩
  · subst h
    decide

/-- Witness for C3 at concrete labels: "Cash_On_Delivery" maps to cod,
"card" to prepaid, an unrecognized label to prepaid, a missing label to
prepaid. -/
theorem c3_payment_mode_total_witness :
    mapPaymentModeToBoxNow (some (.str "Cash_On_Delivery")) = "cod" ∧
    mapPaymentModeToBoxNow (some (.str "card")) = "prepaid" ∧
    mapPaymentModeToBoxNow (some (.str "gift-card")) = "prepaid" ∧
    mapPaymentModeToBoxNow none = "prepaid" :=
  ⟨((c3_payment_mode_total (some (.str "Cash_On_Delivery"))).2.1 _ rfl).1 (by decide),
   ((c3_payment_mode_total (some (.str "card"))).2.1 _ rfl).2.1 (by decide),
   ((c3_payment_mode_total (some (.str "gift-card"))).2.1 _ rfl).2.2 (by decide),
   (c3_payment_mode_total none).2.2 rfl⟩

/-- C7: for every positive numeric weight input (no unit suffix), the
normalizer treats a value above 50 as grams — it is kept as the gram amount,
i.e. the resulting kilograms are the value divided by 1000 — and a value up
to 50 as kilograms, multiplying by 1000 to produce grams. -/
theorem c7_weight_heuristic (q : ℚ) (hq : 0 < q) :
    (50 < q → normalizeWeightToGrams (some (.num q)) = jsRound q) ∧
    (q ≤ 50 → normalizeWeightToGrams (some (.num q)) = jsRound (q * 1000)) := by
  constructor <;> intro h <;>
    simp only [normalizeWeightToGrams, jsToNumberOpt, jsToNumber]
  · have h0 : ¬ q ≤ 0 := by linarith
    have h50 : ¬ q ≤ 50 := by linarith
    simp [h0, h50]
  · have h0 : ¬ q ≤ 0 := by linarith
    simp [h0, h]

/-- Witness for C7: 60 without a unit is taken as grams (kept as 60 g), 3 is
taken as kilograms (3000 g). -/
theorem c7_weight_heuristic_witness :
    (0 : ℚ) < 60 ∧
    normalizeWeightToGrams (some (.num 60)) = jsRound 60 ∧
    normalizeWeightToGrams (some (.num 3)) = jsRound (3 * 1000) :=
  ⟨by norm_num, (c7_weight_heuristic 60 (by norm_num)).1 (by norm_num),
   (c7_weight_heuristic 3 (by norm_num)).2 (by norm_num)⟩

/-- Helper: the sample order with weight 0 is rejected with MISSING_WEIGHT. -/
lemma sample0_rejects :
    handlerB sampleConfig 0 (sampleOrder (.num 0)) = .reject400 "MISSING_WEIGHT" := by
  obtain ⟨d, n, e, p⟩ := sample_validation (.num 0)
  have h0 : totalWeightKgB (sampleOrder (.num 0)) ≤ 0 := le_of_eq totalWeight_sample_num0
  simp [handlerB, d, n, e, p, h0]

/-- C5 (amended): in the weight-rule revision, a delivery request that fails
validation is answered 400 with no outbound call at all — neither the token
exchange nor the carrier call; in the part_000 revision the token exchange is
issued before validation (one exchange call on a cold cache even for an
invalid request), though the delivery-request call itself is never made for a
failed validation. -/
theorem c5_validation_short_circuits :
    (∀ (cfg : Config) (nowMs : ℕ) (o : OrderInput) (err : String) (tc : Bool),
      handlerB cfg nowMs o = .reject400 err → handlerBCalls cfg nowMs o tc = []) ∧
    (∀ (o : Order0) (err : String) (tc : Bool), handler0Core o = .reject400 err →
      handler0Calls o tc = if tc then [] else [.tokenExchange]) := by
  refine ⟨fun cfg nowMs o err tc h => ?_, fun o err tc h => ?_⟩
  · unfold handlerBCalls
    rw [h]
  · unfold handler0Calls
    rw [h]
    simp

/-- Witness for C5: the sample zero-weight order is rejected with no outbound
calls in the weight-rule revision; the empty part_000 body is rejected after
the cold-cache token exchange. -/
theorem c5_validation_short_circuits_witness :
    handlerBCalls sampleConfig 0 (sampleOrder (.num 0)) false = [] ∧
    handler0Calls emptyOrder0 false = if false then [] else [.tokenExchange] :=
  ⟨c5_validation_short_circuits.1 sampleConfig 0 _ "MISSING_WEIGHT" false sample0_rejects,
   c5_validation_short_circuits.2 emptyOrder0 "Missing required fields" false (by decide)⟩

/-- C5 counterexample: the part_000 handler issues the token-exchange call
even though the empty request fails validation with 400, so a call precedes
the failed validation, contradicting the claim for that revision. -/
theorem c5_counterexample :
    handler0Core emptyOrder0 = .reject400 "Missing required fields" ∧
    handler0Calls emptyOrder0 false = [.tokenExchange] ∧
    ([NetworkCall.tokenExchange] : List NetworkCall) ≠ [] := by
  refine ⟨by decide, by decide, by decide⟩

/-- C6 (amended): the index.js phone normalizer agrees with the rule chain of
the claim on every input whose whitespace-stripped form is nonempty, and
returns the empty string (not a bare "+") when that form is empty; in
particular 6912345678 normalizes to +306912345678.  The part_001 revision has
a different normalizer: it leaves a short non-mobile number such as 691234
without any prefix, while the index.js normalizer returns +30691234. -/
theorem c6_phone_normalization :
    (∀ v : Option JsVal,
      normalizePhone v = if phoneStripped v = [] then "" else normalizePhoneClaim v) ∧
    normalizePhone (some (.str "6912345678")) = "+306912345678" ∧
    normalizePhone (some (.str "691234")) = "+30691234" ∧
    normalizePhonePart1 (some (.str "691234")) = "691234" := by
  refine ⟨fun v => ?_, by decide, by decide, by decide⟩
  unfold normalizePhone normalizePhoneClaim
  by_cases h : phoneStripped v = [] <;> simp [h]

/-- C6 counterexample: on the empty phone input the rule chain stated by the
claim produces "+", but the source normalizer returns the empty string. -/
theorem c6_counterexample :
    normalizePhoneClaim (some (.str "")) = "+" ∧
    normalizePhone (some (.str "")) = "" ∧
    ("" : String) ≠ "+" := by
  refine ⟨by decide, by decide, by decide⟩

/-- C9: in the weight-rule revision, for every delivery request that passes
validation with 0 < total weight ≤ 12 kg under the AnyAPM origin (location id
"2"), the request is submitted and the synthetic parcel carries
compartmentSize 2 when the total weight is at most 5 kg and 3 when it is
greater than 5 kg. -/
theorem c9_compartment_from_weight (cfg : Config) (nowMs : ℕ) (o : OrderInput)
    (hdest : jsTruthyOpt (destinationLocationIdB o) = true)
    (hname : jsTruthy (customerNameB o) = true)
    (hemail : jsTruthyOpt (customerEmailB o) = true)
    (hphone : customerPhoneB o ≠ "")
    (hw0 : 0 < totalWeightKgB o) (hw12 : totalWeightKgB o ≤ 12)
    (_horig : originLocationIdB cfg o = "2") :
    handlerB cfg nowMs o = .proceed (buildPayloadB cfg nowMs o) ∧
    (totalWeightKgB o ≤ 5 →
      (buildPayloadB cfg nowMs o).items.map (fun i => i.compartmentSize) = [2]) ∧
    (5 < totalWeightKgB o →
      (buildPayloadB cfg nowMs o).items.map (fun i => i.compartmentSize) = [3]) := by
  have h0 : ¬ totalWeightKgB o ≤ 0 := by linarith
  have h12 : ¬ (12 : ℚ) < totalWeightKgB o := by linarith
  have hsize : compartmentSizeOfWeightB (totalWeightKgB o) = 2 ∨
      compartmentSizeOfWeightB (totalWeightKgB o) = 3 := by
    unfold compartmentSizeOfWeightB
    split_ifs <;> simp
  refine ⟨?_, fun h5 => ?_, fun h5 => ?_⟩
  · rcases hsize with h | h <;>
      simp [handlerB, hdest, hname, hemail, hphone, h0, h12, h]
  · simp [buildPayloadB, compartmentSizeOfWeightB, h5]
  · have hn5 : ¬ totalWeightKgB o ≤ 5 := by linarith
    simp [buildPayloadB, compartmentSizeOfWeightB, hn5]

/-- Witness for C9: the sample order at 3 kg is submitted with compartment
size 2, and at 6 kg the payload carries compartment size 3. -/
theorem c9_compartment_from_weight_witness :
    (handlerB sampleConfig 0 (sampleOrder (.str "3")) =
        .proceed (buildPayloadB sampleConfig 0 (sampleOrder (.str "3"))) ∧
      (buildPayloadB sampleConfig 0 (sampleOrder (.str "3"))).items.map
        (fun i => i.compartmentSize) = [2]) ∧
    (buildPayloadB sampleConfig 0 (sampleOrder (.str "6"))).items.map
      (fun i => i.compartmentSize) = [3] := by
  obtain ⟨d3, n3, e3, p3⟩ := sample_validation (.str "3")
  obtain ⟨d6, n6, e6, p6⟩ := sample_validation (.str "6")
  have r3 := c9_compartment_from_weight sampleConfig 0 _ d3 n3 e3 p3
    (by rw [totalWeight_sample_3]; norm_num) (by rw [totalWeight_sample_3]; norm_num) rfl
  have r6 := c9_compartment_from_weight sampleConfig 0 _ d6 n6 e6 p6
    (by rw [totalWeight_sample_6]; norm_num) (by rw [totalWeight_sample_6]; norm_num) rfl
  exact ⟨⟨r3.1, r3.2.1 (by rw [totalWeight_sample_3]; norm_num)⟩,
    r6.2.2 (by rw [totalWeight_sample_6]; norm_num)⟩

/-- Helper: the compartment-size normalizer only returns 1, 2 or 3. -/
lemma normalizeCompartmentSize_mem (x : Option JsVal) :
    normalizeCompartmentSize x = 1 ∨ normalizeCompartmentSize x = 2 ∨
      normalizeCompartmentSize x = 3 := by
  rcases hx : jsToNumberOpt x with _ | n
  · simp [normalizeCompartmentSize, hx]
  · simp only [normalizeCompartmentSize, hx]
    split_ifs with h
    · exact h
    · exact Or.inr (Or.inl rfl)

/-- C10: the compartment-size value checked by the guards is always one of
1, 2, 3, so the 400 branch for an invalid compartment size is unreachable: in
the weight-rule revision the derived size is exactly 2 or 3 and the handler
never answers with the invalid-compartment error; in the third revision the
normalized size is in 1..3 and the guard condition of line 1081 is false for
every input. -/
theorem c10_invalid_compartment_unreachable :
    (∀ x : Option JsVal, normalizeCompartmentSize x = 1 ∨ normalizeCompartmentSize x = 2 ∨
      normalizeCompartmentSize x = 3) ∧
    (∀ w : ℚ, compartmentSizeOfWeightB w = 2 ∨ compartmentSizeOfWeightB w = 3) ∧
    (∀ (cfg : Config) (nowMs : ℕ) (o : OrderInput),
      handlerB cfg nowMs o ≠ .reject400 "Invalid compartmentSize (must be 1/2/3)") ∧
    (∀ (cfg : Config) (o : OrderInput), compartmentGuardC cfg o = false) := by
  refine ⟨normalizeCompartmentSize_mem, fun w => ?_, fun cfg nowMs o h => ?_, fun cfg o => ?_⟩
  · unfold compartmentSizeOfWeightB
    split_ifs <;> simp
  · unfold handlerB at h
    split_ifs at h with h1 h2 h3 h4 h5
    all_goals
      first
      | (injection h with he
         exact absurd he (by decide))
      | exact HandlerResult.noConfusion h
      | exact absurd h5.2 (by
          unfold compartmentSizeOfWeightB
          split_ifs <;> decide)
  · have hmem : compartmentSizeC o = 1 ∨ compartmentSizeC o = 2 ∨ compartmentSizeC o = 3 :=
      normalizeCompartmentSize_mem _
    have hc : ([(1 : ℚ), 2, 3].contains (compartmentSizeC o)) = true := by
      rcases hmem with h | h | h <;> rw [h] <;> decide
    unfold compartmentGuardC
    rw [hc]
    simp

/-- Witness for C10 at a concrete input: an out-of-range compartment size 7 is
normalized into the allowed set. -/
theorem c10_invalid_compartment_unreachable_witness :
    normalizeCompartmentSize (some (.num 7)) = 1 ∨
    normalizeCompartmentSize (some (.num 7)) = 2 ∨
    normalizeCompartmentSize (some (.num 7)) = 3 :=
  c10_invalid_compartment_unreachable.1 (some (.num 7))

/-- C4 (amended): the token-cache step of the weight-rule revision returns the
cached token with no exchange call when the cached token is truthy and the
current time is more than 30 s before the stored expiry; otherwise it issues
exactly one exchange call and, on a successful exchange carrying a truthy
token and a nonzero numeric lifetime (seconds), caches and returns that token
with expiry now + max(60, lifetime - 300) * 1000 ms — the lifetime minus a
300 s safety margin, clamped below at 60 s, which is not of the form
now + lifetime - margin for any fixed margin. -/
theorem c4_token_cache_step (st : TokenState) (nowMs : ℚ) (exch : ExchangeOutcome) :
    (tokenHitB st nowMs = true →
      authTokenB st nowMs exch = ([], .ok (st.cachedToken.getD (.str ""), st))) ∧
    (tokenHitB st nowMs = false →
      (authTokenB st nowMs exch).1 = [.tokenExchange] ∧
      ∀ (tok : JsVal) (lifetime : ℚ), exch = .success (some tok) (some (.num lifetime)) →
        jsTruthy tok = true → lifetime ≠ 0 →
        authTokenB st nowMs exch = ([.tokenExchange],
          .ok (tok, { cachedToken := some tok,
                      tokenExpiryMs := some (nowMs + max 60 (lifetime - 300) * 1000) }))) := by
  constructor
  · intro hhit
    unfold authTokenB
    rw [if_pos hhit]
  · intro hmiss
    constructor
    · unfold authTokenB
      rw [if_neg (by rw [hmiss]; exact Bool.false_ne_true)]
    · intro tok lifetime hexch htok hlt
      subst hexch
      unfold authTokenB
      rw [if_neg (by rw [hmiss]; exact Bool.false_ne_true)]
      have h1 : jsOr (some (JsVal.num lifetime)) (.num 3600) = .num lifetime := by
        simp [jsOr, jsTruthy, hlt]
      simp [h1, jsToNumber, jsTruthyOpt, htok]

/-- Witness for C4: a valid cached token well before expiry is returned with
no call even when the exchange would fail; a cold cache issues one exchange
and stores expiry now + max(60, 3600 - 300) * 1000. -/
theorem c4_token_cache_step_witness :
    authTokenB { cachedToken := some (.str "tok"), tokenExpiryMs := some 1000000 } 0
        (.failure 500 "oops") =
      ([], .ok (.str "tok",
        { cachedToken := some (.str "tok"), tokenExpiryMs := some 1000000 })) ∧
    authTokenB freshTokenState 0 (.success (some (.str "tok")) (some (.num 3600))) =
      ([.tokenExchange], .ok (.str "tok",
        { cachedToken := some (.str "tok"),
          tokenExpiryMs := some (0 + max 60 (3600 - 300) * 1000) })) := by
  constructor
  · refine (c4_token_cache_step _ 0 _).1 ?_
    show tokenHitB { cachedToken := some (.str "tok"), tokenExpiryMs := some 1000000 } 0 = true
    have : ((0 : ℚ) < 1000000 - 30000) := by norm_num
    simp [tokenHitB, jsTruthyOpt, jsTruthy, this]
  · exact ((c4_token_cache_step freshTokenState 0 _).2 rfl).2 (.str "tok") 3600 rfl
      (by decide) (by norm_num)

/-- C4 counterexample: no fixed safety margin m makes the stored expiry equal
now + lifetime * 1000 - m for every successful refresh: lifetimes 100 s and
200 s both store expiry 60000 ms (the 60 s clamp), which would force
m = 40000 and m = 140000 at once. -/
theorem c4_counterexample :
    ¬ ∃ m : ℚ, ∀ lifetime : ℚ, lifetime ≠ 0 →
      (authTokenB freshTokenState 0 (.success (some (.str "tok")) (some (.num lifetime)))).2 =
        .ok (.str "tok", { cachedToken := some (.str "tok"),
                           tokenExpiryMs := some (lifetime * 1000 - m) }) := by
  rintro ⟨m, hm⟩
  have e : ∀ lifetime : ℚ, lifetime ≠ 0 →
      (authTokenB freshTokenState 0 (.success (some (.str "tok")) (some (.num lifetime)))).2 =
        .ok (.str "tok", { cachedToken := some (.str "tok"),
                           tokenExpiryMs := some (0 + max 60 (lifetime - 300) * 1000) }) := by
    intro l hl
    have hmiss : tokenHitB freshTokenState 0 = false := rfl
    have h1 : jsOr (some (JsVal.num l)) (.num 3600) = .num l := by
      simp [jsOr, jsTruthy, hl]
    simp [authTokenB, hmiss, h1, jsToNumber, jsTruthyOpt, jsTruthy]
  have h1 := (hm 100 (by norm_num)).symm.trans (e 100 (by norm_num))
  have h2 := (hm 200 (by norm_num)).symm.trans (e 200 (by norm_num))
  simp only [Except.ok.injEq, Prod.mk.injEq, TokenState.mk.injEq, Option.some.injEq,
    true_and] at h1 h2
  have hmax1 : max (60 : ℚ) (100 - 300) = 60 := max_eq_left (by norm_num)
  have hmax2 : max (60 : ℚ) (200 - 300) = 60 := max_eq_left (by norm_num)
  rw [hmax1] at h1
  rw [hmax2] at h2
  linarith

/-! ## Structural lemmas on the Number model, for C8: a trailing
non-numeric character makes the whole conversion fail. -/

/-- Dropping a prefix cannot consume a trailing character the predicate
rejects. -/
lemma dropWhile_append_one (p : Char → Bool) (l : List Char) (c : Char) (hc : p c = false) :
    (l ++ [c]).dropWhile p = l.dropWhile p ++ [c] := by
  induction l with
  | nil => simp [List.dropWhile_cons, hc]
  | cons a l ih =>
    by_cases ha : p a
    · simp [List.dropWhile_cons, ha, ih]
    · simp [List.dropWhile_cons, ha]

/-- The remainder after dropping digits from a list with a trailing non-digit
is nonempty. -/
lemma dropWhile_append_one_ne_nil (p : Char → Bool) (l : List Char) (c : Char)
    (hc : p c = false) : (l ++ [c]).dropWhile p ≠ [] := by
  rw [dropWhile_append_one p l c hc]
  simp

/-- Trimming preserves a trailing non-whitespace character. -/
lemma charTrim_append_one (l : List Char) (c : Char) (hc : wsChar c = false) :
    charTrim (l ++ [c]) = l.dropWhile wsChar ++ [c] := by
  unfold charTrim
  rw [dropWhile_append_one wsChar l c hc]
  rw [List.reverse_append]
  simp [List.dropWhile_cons, hc]

/-- The tail of a list with a trailing character is empty or keeps the
trailing character. -/
lemma tail_append_shape (z : List Char) (c : Char) :
    (z ++ [c]).tail = [] ∨ ∃ w, (z ++ [c]).tail = w ++ [c] := by
  cases z with
  | nil => left; rfl
  | cons a z' => right; exact ⟨z', rfl⟩

/-- The exponent remainder of a list with a trailing character is empty or
keeps the trailing character. -/
lemma expRest_append_shape (z : List Char) (c : Char) :
    expRest (z ++ [c]) = [] ∨ ∃ w, expRest (z ++ [c]) = w ++ [c] := by
  unfold expRest
  split_ifs
  · rcases tail_append_shape z c with h | ⟨w, h⟩
    · rw [h]; left; rfl
    · rw [h]; exact tail_append_shape w c
  · exact tail_append_shape z c

/-- The exponent-digit guard fires on a remainder that is empty or ends in a
non-digit. -/
lemma expGuard_true (y : List Char) (c : Char) (hc : c.isDigit = false)
    (hy : y = [] ∨ ∃ w, y = w ++ [c]) :
    y.takeWhile Char.isDigit = [] ∨ y.dropWhile Char.isDigit ≠ [] := by
  rcases hy with rfl | ⟨w, rfl⟩
  · left; rfl
  · right; exact dropWhile_append_one_ne_nil _ w c hc

/-- An exponent part ending in a non-digit never parses. -/
lemma parseExpPart_append_one (z : List Char) (c : Char) (hc : c.isDigit = false) :
    parseExpPart (z ++ [c]) = none := by
  unfold parseExpPart
  rw [if_neg (by simp : ¬(z ++ [c] = []))]
  by_cases he : ((z ++ [c]).head? = some 'e' ∨ (z ++ [c]).head? = some 'E')
  · rw [if_pos he, if_pos (expGuard_true _ c hc (expRest_append_shape z c))]
  · rw [if_neg he]

/-- A mantissa parsed from a list with a trailing non-digit, non-dot
character leaves a remainder that keeps the trailing character. -/
lemma parseDec_append_one (l : List Char) (c : Char) (hcd : c.isDigit = false)
    (hcdot : c ≠ '.') (m : ℚ) (r : List Char)
    (h : parseDec (l ++ [c]) = some (m, r)) : ∃ w, r = w ++ [c] := by
  unfold parseDec at h
  by_cases hd : ((l ++ [c]).dropWhile Char.isDigit).head? = some '.'
  · rw [if_pos hd] at h
    rw [dropWhile_append_one Char.isDigit l c hcd] at hd
    rcases hY : l.dropWhile Char.isDigit with _ | ⟨y, Y'⟩
    · rw [hY] at hd
      simp at hd
      exact absurd hd hcdot
    · rw [dropWhile_append_one Char.isDigit l c hcd, hY] at h
      split_ifs at h with hg
      refine ⟨Y'.dropWhile Char.isDigit, ?_⟩
      have h2 : List.dropWhile Char.isDigit ((y :: Y' ++ [c]).tail) = r := by
        injection h with h'
        exact congrArg Prod.snd h'
      rw [← h2, List.cons_append, List.tail_cons,
        dropWhile_append_one Char.isDigit Y' c hcd]
  · rw [if_neg hd] at h
    split_ifs at h with hds
    refine ⟨l.dropWhile Char.isDigit, ?_⟩
    have h2 : List.dropWhile Char.isDigit (l ++ [c]) = r := by
      injection h with h'
      exact congrArg Prod.snd h'
    rw [← h2, dropWhile_append_one Char.isDigit l c hcd]

/-- An unsigned literal ending in a character that is not a digit, not a dot
and not the final letter of Infinity never parses. -/
lemma parseUnsigned_append_one (l : List Char) (c : Char) (hcd : c.isDigit = false)
    (hcdot : c ≠ '.') (hcy : c ≠ 'y') :
    parseUnsigned (l ++ [c]) = none := by
  unfold parseUnsigned
  by_cases hinf : l ++ [c] = "Infinity".data
  · exfalso
    apply hcy
    have hlast := congrArg List.getLast? hinf
    rw [List.getLast?_concat] at hlast
    have hy : ("Infinity".data.getLast?) = some 'y' := by decide
    rw [hy] at hlast
    exact Option.some.inj hlast
  · rw [if_neg hinf]
    rcases hpd : parseDec (l ++ [c]) with _ | ⟨m, r⟩
    · rfl
    · obtain ⟨w, rfl⟩ := parseDec_append_one l c hcd hcdot m r hpd
      show (parseExpPart (w ++ [c])).map (fun e => m * (10 : ℚ) ^ e) = none
      rw [parseExpPart_append_one w c hcd]
      rfl

/-- The whole string-to-number conversion fails on any input ending in a
character that is not whitespace, not a digit, not a dot and not the final
letter of Infinity. -/
lemma jsNumberChars_append_one (l : List Char) (c : Char) (hws : wsChar c = false)
    (hcd : c.isDigit = false) (hcdot : c ≠ '.') (hcy : c ≠ 'y') :
    jsNumberChars (l ++ [c]) = none := by
  unfold jsNumberChars
  rw [charTrim_append_one l c hws]
  rw [if_neg (by simp : ¬(l.dropWhile wsChar ++ [c] = []))]
  have hsub : ∀ z : List Char, parseUnsigned (z ++ [c]) = none := fun z =>
    parseUnsigned_append_one z c hcd hcdot hcy
  have hnil : parseUnsigned ([] : List Char) = none := by decide
  by_cases h1 : (l.dropWhile wsChar ++ [c]).head? = some '+'
  · rw [if_pos h1]
    rcases tail_append_shape (l.dropWhile wsChar) c with h | ⟨w, h⟩
    · rw [h]; exact hnil
    · rw [h]; exact hsub w
  · rw [if_neg h1]
    by_cases h2 : (l.dropWhile wsChar ++ [c]).head? = some '-'
    · rw [if_pos h2]
      rcases tail_append_shape (l.dropWhile wsChar) c with h | ⟨w, h⟩
      · rw [h, hnil]; rfl
      · rw [h, hsub w]; rfl
    · rw [if_neg h2]
      exact hsub (l.dropWhile wsChar)

/-- Replacing the first comma preserves a trailing non-comma character. -/
lemma replaceFirstComma_append_one (l : List Char) (c : Char) (hc : c ≠ ',') :
    ∃ w, replaceFirstComma (l ++ [c]) = w ++ [c] := by
  induction l with
  | nil => exact ⟨[], by simp [replaceFirstComma, hc]⟩
  | cons a l ih =>
    by_cases ha : a = ','
    · exact ⟨'.' :: l, by simp [replaceFirstComma, ha]⟩
    · obtain ⟨w, hw⟩ := ih
      exact ⟨a :: w, by simp [replaceFirstComma, ha, hw]⟩

/-- parseKg rejects (returns 0 on) every string whose final character is not
numeric: in particular every string ending in a unit suffix. -/
lemma parseKg_ends (v : String) (l : List Char) (c : Char) (hdata : v.data = l ++ [c])
    (hws : wsChar c = false) (hcd : c.isDigit = false) (hcdot : c ≠ '.') (hcy : c ≠ 'y')
    (hcomma : c ≠ ',') :
    parseKg (some (.str v)) = 0 := by
  have hchain : jsNumberChars (replaceFirstComma (charTrim (jsToString (.str v)).data)) =
      none := by
    show jsNumberChars (replaceFirstComma (charTrim v.data)) = none
    rw [hdata, charTrim_append_one l c hws]
    obtain ⟨w, hw⟩ := replaceFirstComma_append_one (l.dropWhile wsChar) c hcomma
    rw [hw]
    exact jsNumberChars_append_one w c hws hcd hcdot hcy
  show parseKgVal (jsNumberChars (replaceFirstComma (charTrim (jsToString (.str v)).data))) = 0
  rw [hchain]
  rfl

/-- C8 (amended): parseKg does not support unit suffixes: every weight string
ending in kg, g or gr fails the numeric conversion and parses to 0 (the
invalid-weight marker); only the decimal-separator tolerance of the claim
holds: the comma form "0,22" and the dot form "0.22" both parse to 0.22. -/
theorem c8_suffix_not_supported :
    (∀ t : String, parseKg (some (.str (t ++ "kg"))) = 0) ∧
    (∀ t : String, parseKg (some (.str (t ++ "g"))) = 0) ∧
    (∀ t : String, parseKg (some (.str (t ++ "gr"))) = 0) ∧
    parseKg (some (.str "0,22")) = 22 / 100 ∧
    parseKg (some (.str "0.22")) = 22 / 100 := by
  refine ⟨fun t => ?_, fun t => ?_, fun t => ?_, ?_, ?_⟩
  · exact parseKg_ends _ (t.data ++ ['k']) 'g'
      (by rw [String.data_append, show "kg".data = ['k'] ++ ['g'] from rfl,
        ← List.append_assoc])
      (by decide) (by decide) (by decide) (by decide) (by decide)
  · exact parseKg_ends _ t.data 'g'
      (by rw [String.data_append])
      (by decide) (by decide) (by decide) (by decide) (by decide)
  · exact parseKg_ends _ (t.data ++ ['g']) 'r'
      (by rw [String.data_append, show "gr".data = ['g'] ++ ['r'] from rfl,
        ← List.append_assoc])
      (by decide) (by decide) (by decide) (by decide) (by decide)
  · norm_num +decide [parseKg, parseKgVal, jsToString, charTrim, replaceFirstComma, jsNumberChars,
      parseUnsigned, parseDec, parseExpPart, expRest, fracDigits, digitsToNat, wsChar,
      digitVal_0, digitVal_2]
  · norm_num +decide [parseKg, parseKgVal, jsToString, charTrim, replaceFirstComma, jsNumberChars,
      parseUnsigned, parseDec, parseExpPart, expRest, fracDigits, digitsToNat, wsChar,
      digitVal_0, digitVal_2]

/-- C8 counterexample: the suffixed inputs "0,22kg" and "220g" parse to 0,
not to the 0.22 kilograms the claim requires. -/
theorem c8_counterexample :
    parseKg (some (.str "0,22kg")) = 0 ∧
    parseKg (some (.str "220g")) = 0 ∧
    (0 : ℚ) ≠ 22 / 100 := by
  refine ⟨?_, ?_, by norm_num⟩
  · exact parseKg_ends _ "0,22k".data 'g' (by rw [show "0,22kg" = "0,22k" ++ "g" from rfl,
      String.data_append]) (by decide) (by decide) (by decide) (by decide) (by decide)
  · exact parseKg_ends _ "220".data 'g' (by rw [show "220g" = "220" ++ "g" from rfl,
      String.data_append]) (by decide) (by decide) (by decide) (by decide) (by decide)

end BoxNow
